import Mathlib

/-!
Shallow embedding of the RADOX detection-and-report orchestration pipeline
(server.js, src/services/pneumoniaDetector.js, src/services/reportGenerator.js,
src/utils/imageProcessor.js).

Modelling conventions:
* JavaScript numbers are modelled as `ℚ`; `Math.round` is `⌊x + 1/2⌋`.
* Async functions that can reject are modelled as `Except String α`; a
  `throw` / rejected promise is `Except.error`.
* Ambient effects (file system, the sharp decoder, the Python bridge, the
  Hugging Face HTTP endpoint, and the wall clock) are passed in explicitly as
  environment records, so each service body is a pure function of its inputs
  and its environment.
* `String.prototype.toLowerCase` is modelled with `Char.toLower`, which folds
  ASCII letters only; every case-folded literal compared by the code
  ("google/medgemma-4b-it", "Neumonía", the section anchors) is affected only
  in its ASCII letters, so the comparisons commit the same way as in JS.
* `String.prototype.trim` is modelled by `String.trim` (whitespace as judged
  by `Char.isWhitespace`).
-/

namespace Radox

/-- Lowercases a string character-wise (model of `toLowerCase`). -/
def toLowerStr (s : String) : String :=
  ⟨s.data.map Char.toLower⟩

/-- JavaScript `Math.round` on a rational: round half toward positive infinity. -/
def jsRound (x : ℚ) : ℤ :=
  Int.floor (x + 1/2)

/-- Confidence-to-percentage conversion `Math.round(confianza * 100)` used across the services. -/
def pct (c : ℚ) : ℤ :=
  jsRound (c * 100)

/-- First index at which `pat` occurs as a contiguous sublist of the haystack, if any. -/
def findSub (pat : List Char) : List Char → Option Nat
  | [] => if pat.isEmpty then some 0 else none
  | c :: rest =>
    if pat.isPrefixOf (c :: rest) then some 0
    else (findSub pat rest).map (fun n => n + 1)

/-- Number of characters to consume before one of the two stop patterns starts
(or the end of the list), measured from the head. Models the lazy
`[\s\S]*?(?=p1|p2|$)` part of the extraction regexes. -/
def stopIdx (p1 p2 : List Char) : List Char → Nat
  | [] => 0
  | c :: rest =>
    if p1.isPrefixOf (c :: rest) || p2.isPrefixOf (c :: rest) then 0
    else stopIdx p1 p2 rest + 1

/-- Substring of `s` from character index `start` (inclusive) to `stop` (exclusive). -/
def sliceStr (s : String) (start stop : Nat) : String :=
  ⟨(s.data.drop start).take (stop - start)⟩

/-- One reading of the wall clock, carrying what the services extract from a JS
`Date` object: `toISOString()`, `toLocaleDateString('es-ES')` and
`toLocaleString('es-ES')`. -/
structure JsDate where
  iso : String
  localeDate : String
  localeFull : String
  deriving DecidableEq

/-! ## Pneumonia detector (src/services/pneumoniaDetector.js) -/

/-- The `model_info` record attached to predictions. -/
structure ModelInfo where
  status : String
  architecture : String
  device : String
  numClasses : Nat
  deriving DecidableEq

/-- The prediction record returned by `PneumoniaDetector.predict` (field
`hasNeumonía` of the source is spelled `hasNeumonia`). -/
structure Prediction where
  label : String
  confidence : ℚ
  rawPredictions : List ℚ
  classProbabilities : List (String × ℚ)
  probNeumonia : ℚ
  hasNeumonia : Bool
  heatmap : Option (List (List ℚ))
  caseId : String
  modelInfo : ModelInfo
  deriving DecidableEq

/-- Mutable flags of the `PneumoniaDetector` instance after `initialize()`. -/
structure DetectorState where
  isInitialized : Bool
  useMockModel : Bool
  deriving DecidableEq

/-- Parsed JSON answer of `callPythonBridge('init')`. -/
structure InitResult where
  success : Bool
  errMsg : Option String
  architecture : Option String
  deriving DecidableEq

/-- Environment seen by `PneumoniaDetector.initialize`: whether the bridge
script exists on disk, and the outcome of `callPythonBridge('init')`
(`Except.error` models a rejected promise: nonzero exit code or JSON parse
failure). -/
structure DetectorEnv where
  bridgeExists : Bool
  bridgeInit : Except String InitResult

/-- Body of the `try` block of `PneumoniaDetector.initialize`: missing bridge
script and bridge rejection throw; otherwise the flags are set from
`initResult.success`. -/
def tryInitDetector (env : DetectorEnv) : Except String DetectorState :=
  if env.bridgeExists = false then
    Except.error "Script puente no encontrado en: ./scripts/python_cnn_bridge.py"
  else
    match env.bridgeInit with
    | Except.error e => Except.error e
    | Except.ok r => Except.ok { isInitialized := true, useMockModel := !r.success }

/-- `PneumoniaDetector.initialize`: the catch block swallows every error and
leaves the detector initialized in mock mode, so the method never rejects. -/
def initDetector (env : DetectorEnv) : DetectorState :=
  match tryInitDetector env with
  | Except.ok s => s
  | Except.error _ => { isInitialized := true, useMockModel := true }

/-- Modelled from the spec: the body of `PneumoniaDetector.mockPredict` is
elided from the sources (src/services/pneumoniaDetector.js keeps only the
comment `// ... mockPredict(), ...`). The spec (§4.2, §7, Scenario E) requires
only that degraded-mode predictions carry a clear mock/demo marker; the marker
is modelled as `modelInfo.status = "mock"`, and the remaining field values are
unconstrained demo values. -/
def mockPredict (_imagePath : String) : Prediction :=
  { label := "Normal"
  , confidence := 7/10
  , rawPredictions := []
  , classProbabilities := [("Neumonía", 3/10), ("Normal", 7/10)]
  , probNeumonia := 3/10
  , hasNeumonia := false
  , heatmap := none
  , caseId := "case_mock"
  , modelInfo := { status := "mock", architecture := "mock", device := "cpu", numClasses := 2 } }

/-- The hard-coded prediction literal returned by `predict` in non-mock mode
(src/services/pneumoniaDetector.js lines 84-95; the call to `pythonPredict`
is commented out in the source). -/
def hardcodedPrediction : Prediction :=
  { label := "Neumonía"
  , confidence := 85/100
  , rawPredictions := [6/5, -(1/2)]
  , classProbabilities := [("Neumonía", 85/100), ("Normal", 15/100)]
  , probNeumonia := 85/100
  , hasNeumonia := true
  , heatmap := none
  , caseId := "case_mock"
  , modelInfo := { status := "mock", architecture := "mock", device := "cpu", numClasses := 2 } }

/-- Abstract interface of `callPythonBridge('predict', imagePath)`. -/
def Bridge : Type :=
  String → Except String Prediction

/-- `PneumoniaDetector.predict`. The `bridge` argument is the Python bridge;
the source's only call to it from `predict` (via `pythonPredict`) is commented
out, so the body never consults it. -/
def predict (_bridge : Bridge) (st : DetectorState) (imagePath : String) :
    Except String Prediction :=
  if st.isInitialized = false then
    Except.error "El detector no está inicializado"
  else if st.useMockModel then
    Except.ok (mockPredict imagePath)
  else
    Except.ok hardcodedPrediction

/-! ## Decision gate (server.js, /api/analyze and /api/generate-report) -/

/-- The `puedeGenerarInforme` computation of the `/api/analyze` response
(server.js): `prediction.label === 'Neumonía' && prediction.confidence >=
parseFloat(process.env.CONFIDENCE_THRESHOLD)`. -/
def puedeGenerarInforme (label : String) (confidence threshold : ℚ) : Bool :=
  label == "Neumonía" && decide (threshold ≤ confidence)

/-- The eligibility check of `POST /api/generate-report` (server.js): the
request is rejected when `!diagnostico || diagnostico !== 'Neumonía'` or when
`confianza < threshold`; this function is true exactly when neither rejection
fires. -/
def reportRequestAccepted (diagnostico : String) (confianza threshold : ℚ) : Bool :=
  (!(diagnostico == "") && diagnostico == "Neumonía") && !(decide (confianza < threshold))

/-! ## Report generator (src/services/reportGenerator.js) -/

/-- `this.maxRetries` of the `ReportGenerator` constructor. -/
def maxRetries : Nat := 3

/-- `this.retryDelay` (milliseconds) of the `ReportGenerator` constructor. -/
def retryDelay : Nat := 2000

/-- Configuration read by the `ReportGenerator` constructor:
`process.env.HUGGINGFACE_TOKEN` (`none` models an unset variable) and
`process.env.MEDGEMMA_MODEL || 'google/medgemma-7b'`. -/
structure GenConfig where
  apiToken : Option String
  modelName : String
  deriving DecidableEq

/-- The token test repeated in `initialize` and `generateReport`:
`!this.apiToken || this.apiToken === 'your_hf_token_here' || this.apiToken ===
'your2_hf_token_here'` (an empty string is falsy in JS). -/
def tokenMissing (t : Option String) : Bool :=
  match t with
  | none => true
  | some s => s == "" || s == "your_hf_token_here" || s == "your2_hf_token_here"

/-- `ReportGenerator.buildMedicalPrompt` (`datosAdicionales` is accepted but
unused by the source body; the date interpolated in the REST prompt is
`toLocaleDateString('es-ES')`). -/
def buildMedicalPrompt (cfg : GenConfig) (diagnostico : String) (confianza : ℚ)
    (now : JsDate) : String :=
  if toLowerStr cfg.modelName == "google/medgemma-4b-it" then
    "Por favor, genera un informe médico detallado sobre la presencia o ausencia de neumonía en la radiografía proporcionada. No utilices información adicional, solo analiza la imagen."
  else
    "Como médico especialista en radiología, genera un informe médico detallado para la siguiente radiografía de tórax:\n\nRESULTADO DEL ANÁLISIS:\n- Diagnóstico: " ++ diagnostico ++ "\n- Nivel de confianza: " ++ toString (pct confianza) ++ "%\n- Fecha del análisis: " ++ now.localeDate ++ "\n\nINSTRUCCIONES:\n1. Genera un informe médico profesional en español\n2. Incluye hallazgos radiológicos específicos\n3. Proporciona recomendaciones clínicas\n4. Mantén un tono profesional y médico\n5. El informe debe tener máximo 300 palabras\n\nESTRUCTURA REQUERIDA:\n- Hallazgos radiológicos\n- Impresión diagnóstica\n- Recomendaciones\n\nInforme médico:"

/-- The `metadatos` block of a structured report (`tipoInforme` is present only
in fallback reports). -/
structure Metadatos where
  fechaGeneracion : String
  modeloIA : String
  confianzaDeteccion : ℚ
  diagnosticoIA : String
  version : String
  tipoInforme : Option String
  deriving DecidableEq

/-- The structured report object built by `processReport` and
`generateFallbackReport`. -/
structure InformeEstructurado where
  resumenEjecutivo : String
  informeCompleto : String
  hallazgos : String
  recomendaciones : String
  metadatos : Metadatos
  disclaimer : String
  deriving DecidableEq

/-- The `analysisData` argument of `generateReport`: diagnosis label,
confidence, and the processed-image path (the source accepts the aliases
`imagePath`/`imagenPath`/`image_path`, collapsed here into one optional
field; `datosAdicionales` is unused by every code path and omitted). -/
structure AnalysisData where
  diagnostico : String
  confianza : ℚ
  imagePath : Option String
  deriving DecidableEq

/-- `ReportGenerator.extractFindings`: the regex
`/hallazgos[\s\S]*?(?=recomendaciones|impresión|$)/i` matched against the
report, i.e. the slice from the first case-insensitive occurrence of
"hallazgos" up to the first later position where "recomendaciones" or
"impresión" starts (or the end), trimmed; the fixed default when the anchor is
absent. -/
def extractFindings (report : String) : String :=
  let lc := (toLowerStr report).data
  match findSub ("hallazgos".data) lc with
  | none => "Ver informe completo"
  | some i =>
    let bodyStart := i + 9
    let stop := bodyStart + stopIdx ("recomendaciones".data) ("impresión".data) (lc.drop bodyStart)
    (sliceStr report i stop).trim

/-- `ReportGenerator.extractRecommendations`: the regex
`/recomendaciones[\s\S]*$/i`, i.e. the slice from the first case-insensitive
occurrence of "recomendaciones" to the end, trimmed; the fixed default when
the anchor is absent. -/
def extractRecommendations (report : String) : String :=
  match findSub ("recomendaciones".data) ((toLowerStr report).data) with
  | none => "Consultar con especialista en neumología"
  | some i => (sliceStr report i report.data.length).trim

/-- The disclaimer literal attached by `processReport`. -/
def disclaimerIA : String :=
  "Este informe fue generado por inteligencia artificial y debe ser revisado por un profesional médico cualificado antes de tomar decisiones clínicas."

/-- The disclaimer literal attached by `generateFallbackReport`. -/
def disclaimerDemo : String :=
  "⚠️ IMPORTANTE: Este informe fue generado en modo demostración. Para uso clínico real, configure el token de Hugging Face válido. Este resultado NO debe usarse para tomar decisiones médicas."

/-- `ReportGenerator.processReport` (the remote-text branch of report
assembly); `fechaGeneracion` is `new Date().toISOString()`. -/
def processReport (cfg : GenConfig) (rawReport : String) (data : AnalysisData)
    (now : JsDate) : InformeEstructurado :=
  { resumenEjecutivo :=
      "Análisis radiológico computarizado detectó " ++ toLowerStr data.diagnostico
        ++ " con " ++ toString (pct data.confianza) ++ "% de confianza."
  , informeCompleto := rawReport
  , hallazgos := extractFindings rawReport
  , recomendaciones := extractRecommendations rawReport
  , metadatos :=
      { fechaGeneracion := now.iso
      , modeloIA := cfg.modelName
      , confianzaDeteccion := data.confianza
      , diagnosticoIA := data.diagnostico
      , version := "1.0.0"
      , tipoInforme := none }
  , disclaimer := disclaimerIA }

/-- The `informeBasico` template literal of `generateFallbackReport`, with its
interpolations and the source's trailing `.trim()` already applied (the
embedded date/time is `new Date().toLocaleString('es-ES')`). -/
def fallbackInformeCompleto (diagnostico : String) (confianza : ℚ) (now : JsDate) : String :=
  "INFORME RADIOLÓGICO AUTOMATIZADO - VERSIÓN DEMO\n\nHALLAZGOS RADIOLÓGICOS:\nEl análisis computarizado de la radiografía de tórax mediante red neuronal convolucional revela hallazgos compatibles con " ++ toLowerStr diagnostico ++ ". El sistema ha identificado patrones radiológicos que sugieren la presencia de cambios en el parénquima pulmonar.\n\nIMPRESIÓN DIAGNÓSTICA:\n- Diagnóstico por IA: " ++ diagnostico ++ "\n- Nivel de confianza: " ++ toString (pct confianza) ++ "%\n- Análisis realizado con modelo CNN especializado\n- Fecha y hora del análisis: " ++ now.localeFull ++ "\n\nRECOMENDACIONES CLÍNICAS:\n1. **Correlación clínica obligatoria** - Los hallazgos deben ser interpretados en el contexto clínico del paciente\n2. **Evaluación por especialista** - Se recomienda revisión por radiólogo o neumólogo\n3. **Estudios complementarios** - Considerar TC de tórax si está clínicamente indicado\n4. **Seguimiento médico** - Establecer plan de seguimiento según protocolo institucional\n5. **Historia clínica** - Correlacionar con síntomas, signos vitales y laboratorios\n\nLIMITACIONES DEL SISTEMA:\n- Este análisis es una herramienta de apoyo diagnóstico\n- No reemplaza el criterio médico profesional\n- Requiere validación por especialista cualificado\n\nNOTA: Este es un informe automatizado generado para fines de demostración y prueba del sistema RADOX."

/-- `ReportGenerator.generateFallbackReport`; `fechaGeneracion` is
`new Date().toISOString()` and the body embeds
`new Date().toLocaleString('es-ES')`. -/
def generateFallbackReport (data : AnalysisData) (now : JsDate) : InformeEstructurado :=
  { resumenEjecutivo :=
      "Sistema de IA detectó " ++ toLowerStr data.diagnostico ++ " con "
        ++ toString (pct data.confianza) ++ "% de confianza. Requiere validación médica profesional."
  , informeCompleto := fallbackInformeCompleto data.diagnostico data.confianza now
  , hallazgos :=
      "Análisis automatizado sugiere hallazgos compatibles con " ++ toLowerStr data.diagnostico
        ++ ". Confianza del sistema: " ++ toString (pct data.confianza) ++ "%"
  , recomendaciones :=
      "Evaluación médica profesional OBLIGATORIA para confirmación diagnóstica. Este resultado es solo de apoyo y no constituye diagnóstico médico definitivo."
  , metadatos :=
      { fechaGeneracion := now.iso
      , modeloIA := "Sistema RADOX Demo"
      , confianzaDeteccion := data.confianza
      , diagnosticoIA := data.diagnostico
      , version := "1.0.0"
      , tipoInforme := some "Demostración" }
  , disclaimer := disclaimerDemo }

/-- Outcome of one `axios.post` attempt inside `generateWithRetry`: either a
non-empty `generated_text` payload, or a failure whose flag records whether
`error.response?.status === 503` (an empty API response is a non-503
failure). -/
inductive AttemptOutcome where
  | success (text : String)
  | failure (is503 : Bool)
  deriving DecidableEq

/-- Observable run of `generateWithRetry`: the returned text or the thrown
last error (its 503 flag), the sequence of `sleep` durations performed, and
how many attempts were made. -/
structure RetryRun where
  result : Except Bool String
  sleeps : List Nat
  attemptsMade : Nat

/-- The `for (attempt = 1; attempt <= maxRetries; ...)` loop of
`generateWithRetry`, over the list of remaining attempt numbers. A success
returns `generated_text.trim()`. After a failure the loop sleeps
`retryDelay * attempt` when the failure was a 503 (even on the final attempt),
sleeps `retryDelay` when it was not and another attempt remains, and throws
the last error once no attempts remain. -/
def runAttempts (outcomes : Nat → AttemptOutcome) : List Nat → RetryRun
  | [] => { result := Except.error false, sleeps := [], attemptsMade := 0 }
  | i :: rest =>
    match outcomes i with
    | AttemptOutcome.success t =>
      { result := Except.ok t.trim, sleeps := [], attemptsMade := 1 }
    | AttemptOutcome.failure is503 =>
      let tail := runAttempts outcomes rest
      let ds : List Nat :=
        if is503 then [retryDelay * i] else if rest.isEmpty then [] else [retryDelay]
      { result := match rest with | [] => Except.error is503 | _ :: _ => tail.result
      , sleeps := ds ++ tail.sleeps
      , attemptsMade := 1 + tail.attemptsMade }

/-- The attempt numbers `1 .. maxRetries` walked by the retry loop. -/
def attemptNums : List Nat := List.range' 1 maxRetries

/-- `ReportGenerator.generateWithRetry`, with the HTTP endpoint abstracted as
the per-attempt outcome function. -/
def generateWithRetry (outcomes : Nat → AttemptOutcome) : RetryRun :=
  runAttempts outcomes attemptNums

/-- Value returned by `generateReport`: the medgemma-4b-it branch resolves to
the bare generated string, every other successful branch to a structured
report. -/
inductive ReportResult where
  | texto (s : String)
  | estructurado (r : InformeEstructurado)
  deriving DecidableEq

/-- Environment seen by `generateReport`: the per-attempt outcomes of the
Hugging Face REST endpoint, the `medgemma4b_report.py` subprocess keyed by
(prompt, image path) — `Except.error` carries its stderr — and the clock. -/
structure GenEnv where
  outcomes : Nat → AttemptOutcome
  medgemma : String → String → Except String String
  now : JsDate

/-- `ReportGenerator.generateReport`. The medgemma-4b-it branch runs first and
propagates subprocess failures as rejections; then the initialization guard
throws; then a missing token short-circuits to the fallback report; otherwise
the retry loop's success is structured by `processReport` and any thrown error
is caught and replaced by the fallback report. -/
def generateReport (cfg : GenConfig) (isInit : Bool) (env : GenEnv)
    (data : AnalysisData) : Except String ReportResult :=
  if toLowerStr cfg.modelName == "google/medgemma-4b-it" then
    match data.imagePath with
    | none => Except.error "No se proporcionó la ruta local de la imagen para MedGemma 4b-it"
    | some p =>
      match env.medgemma (buildMedicalPrompt cfg data.diagnostico data.confianza env.now) p with
      | Except.ok out => Except.ok (ReportResult.texto out.trim)
      | Except.error e => Except.error ("Error Python: " ++ e)
  else if isInit = false then
    Except.error "El generador de informes no está inicializado"
  else if tokenMissing cfg.apiToken then
    Except.ok (ReportResult.estructurado (generateFallbackReport data env.now))
  else
    match (generateWithRetry env.outcomes).result with
    | Except.ok raw => Except.ok (ReportResult.estructurado (processReport cfg raw data env.now))
    | Except.error _ => Except.ok (ReportResult.estructurado (generateFallbackReport data env.now))

/-! ## Image processor (src/utils/imageProcessor.js) -/

/-- `this.supportedFormats` of the `ImageProcessor` constructor. -/
def supportedFormats : List String := [".jpg", ".jpeg", ".png", ".dcm", ".dicom"]

/-- `this.targetSize`: `parseInt(process.env.IMAGE_SIZE) || 224`, modelled at
its default. -/
def targetSize : Nat := 224

/-- `parseInt(process.env.MAX_FILE_SIZE || 10485760)` used by `validateImage`. -/
def maxFileSize : Nat := 10485760

/-- Base name of a path: the characters after the last slash. -/
def baseNameChars (l : List Char) : List Char :=
  (l.reverse.takeWhile (fun c => c ≠ '/')).reverse

/-- Characters of `path.extname`: the final dot of the base name and what
follows it; empty when the base name has no dot or only a leading dot. -/
def extChars (l : List Char) : List Char :=
  let base := baseNameChars l
  let revTail := base.reverse.takeWhile (fun c => c ≠ '.')
  if revTail.length = base.length then []
  else if revTail.length + 1 = base.length then []
  else '.' :: revTail.reverse

/-- `path.extname`. -/
def extname (p : String) : String := ⟨extChars p.data⟩

/-- `path.dirname` (approximated on normalized relative paths: everything
before the last slash, or "." when there is none). -/
def dirname (p : String) : String :=
  match p.data.reverse.dropWhile (fun c => c ≠ '/') with
  | [] => "."
  | _ :: [] => "/"
  | _ :: rest => ⟨rest.reverse⟩

/-- `path.basename(inputPath, path.extname(inputPath))`. -/
def baseNameNoExt (p : String) : String :=
  let base := baseNameChars p.data
  ⟨base.take (base.length - (extChars p.data).length)⟩

/-- `ImageProcessor.generateOutputPath`: sibling path named
`<name>_processed_<Date.now()>.jpeg`. -/
def generateOutputPath (inputPath : String) (nowMs : Nat) : String :=
  dirname inputPath ++ "/" ++ baseNameNoExt inputPath ++ "_processed_" ++ toString nowMs ++ ".jpeg"

/-- Descriptor of the file written by the sharp pipeline
`resize(targetSize, targetSize, cover/center).grayscale().normalize().jpeg({quality: 90})`. -/
structure ProcessedImage where
  path : String
  width : Nat
  height : Nat
  grayscale : Bool
  normalized : Bool
  format : String
  quality : Nat
  deriving DecidableEq

/-- Environment seen by the image processor: the file system
(`fs.pathExists`, file size), the sharp decoder (whether a file's bytes are a
decodable raster image, the error message when not, and the decoded metadata),
and `Date.now()`. -/
structure ImgEnv where
  pathExistsF : String → Bool
  decodable : String → Bool
  decodeError : String → String
  width : String → Nat
  height : String → Nat
  sizeBytes : String → Nat
  format : String → String
  nowMs : Nat

/-- `ImageProcessor.processStandardImage`: on a decodable input, writes the
resized grayscale normalized jpeg and returns its path; a sharp failure is
rethrown with the standard-image prefix. -/
def processStandardImage (env : ImgEnv) (inputPath : String) : Except String ProcessedImage :=
  if env.decodable inputPath then
    Except.ok
      { path := generateOutputPath inputPath env.nowMs
      , width := targetSize
      , height := targetSize
      , grayscale := true
      , normalized := true
      , format := "jpeg"
      , quality := 90 }
  else
    Except.error ("Error al procesar imagen estándar: " ++ env.decodeError inputPath)

/-- `ImageProcessor.processDicomImage`: no DICOM decoding is implemented; the
input is forwarded to `processStandardImage` and a failure is rethrown with
the DICOM prefix. -/
def processDicomImage (env : ImgEnv) (inputPath : String) : Except String ProcessedImage :=
  match processStandardImage env inputPath with
  | Except.ok r => Except.ok r
  | Except.error e => Except.error ("Error al procesar imagen DICOM: " ++ e)

/-- `ImageProcessor.processImage`: existence check, lowercased-extension
check against `supportedFormats`, then dispatch on `.dcm`/`.dicom` versus
standard processing. No dimension validation is performed on this path. -/
def processImage (env : ImgEnv) (inputPath : String) : Except String ProcessedImage :=
  if env.pathExistsF inputPath = false then
    Except.error ("Archivo no encontrado: " ++ inputPath)
  else
    let ext := toLowerStr (extname inputPath)
    if supportedFormats.contains ext = false then
      Except.error ("Formato de archivo no soportado: " ++ ext)
    else if ext == ".dcm" || ext == ".dicom" then
      processDicomImage env inputPath
    else
      processStandardImage env inputPath

/-- Result object of `ImageProcessor.validateImage` (metadata fields other
than the validity verdict and error list are omitted). -/
structure ValidationResult where
  isValid : Bool
  errors : List String
  deriving DecidableEq

/-- `ImageProcessor.validateImage`: flags images smaller than 100x100,
oversized files, and non-standard formats; a sharp metadata failure yields a
single validation error. This function is defined by the source but never
invoked by any request path. -/
def validateImage (env : ImgEnv) (p : String) : ValidationResult :=
  if env.decodable p = false then
    { isValid := false, errors := ["Error al validar imagen: " ++ env.decodeError p] }
  else
    let errs : List String :=
      (if env.width p < 100 || env.height p < 100 then
        ["Imagen demasiado pequeña (mínimo 100x100)"] else [])
      ++ (if maxFileSize < env.sizeBytes p then ["Archivo demasiado grande"] else [])
      ++ (if (["jpeg", "jpg", "png"].contains (env.format p)) = false then
        ["Formato de imagen no estándar"] else [])
    { isValid := errs.isEmpty, errors := errs }

/-! ## The /api/analyze route (server.js) -/

/-- The `resultado` object of a successful `/api/analyze` response. -/
structure AnalyzeResult where
  diagnostico : String
  confianza : ℚ
  porcentaje : ℤ
  tieneNeumonia : Bool
  puedeGenerarInforme : Bool
  imagePath : String
  deriving DecidableEq

/-- Body of the `/api/analyze` handler: process the uploaded image, run the
detector on the processed path, and assemble the `resultado` object (an
`Except.error` models the handler's catch block answering HTTP 500). The
handler performs no dimension validation between processing and inference. -/
def analyzeRequest (env : ImgEnv) (b : Bridge) (st : DetectorState)
    (threshold : ℚ) (filePath : String) : Except String AnalyzeResult :=
  match processImage env filePath with
  | Except.error e => Except.error e
  | Except.ok processed =>
    match predict b st processed.path with
    | Except.error e => Except.error e
    | Except.ok pred =>
      Except.ok
        { diagnostico := pred.label
        , confianza := pred.confidence
        , porcentaje := pct pred.confidence
        , tieneNeumonia := pred.label == "Neumonía"
        , puedeGenerarInforme := puedeGenerarInforme pred.label pred.confidence threshold
        , imagePath := processed.path }

/-! ## Concrete fixtures used by witnesses and counterexamples -/

/-- Sample clock reading. -/
def date1 : JsDate :=
  { iso := "2025-08-14T10:00:00.000Z", localeDate := "14/8/2025", localeFull := "14/8/2025, 12:00:00" }

/-- A later clock reading. -/
def date2 : JsDate :=
  { iso := "2025-08-15T09:30:00.000Z", localeDate := "15/8/2025", localeFull := "15/8/2025, 11:30:00" }

/-- REST-model configuration with a real-looking token. -/
def cfgRest : GenConfig := { apiToken := some "hf_abc123", modelName := "google/medgemma-7b" }

/-- Configuration selecting the medgemma-4b-it subprocess branch. -/
def cfg4b : GenConfig := { apiToken := some "hf_abc123", modelName := "google/medgemma-4b-it" }

/-- An eligible analysis payload (positive label, high confidence). -/
def eligibleData : AnalysisData :=
  { diagnostico := "Neumonía"
  , confianza := 92/100
  , imagePath := some "./uploads/radiografia-1_processed_1755000000000.jpeg" }

/-- Generation environment in which every remote attempt and the medgemma
subprocess fail. -/
def failingGenEnv : GenEnv :=
  { outcomes := fun _ => AttemptOutcome.failure false
  , medgemma := fun _ _ => Except.error "ConnectionError: no se pudo contactar con el servicio"
  , now := date1 }

/-- Generation environment in which the medgemma subprocess succeeds. -/
def okGenEnv : GenEnv :=
  { outcomes := fun _ => AttemptOutcome.success "ok"
  , medgemma := fun _ _ => Except.ok "Informe generado por MedGemma"
  , now := date1 }

/-- A bridge that would reject if consulted. -/
def bridgeA : Bridge := fun _ => Except.error "bridge unused"

/-- A bridge that would answer a mock prediction if consulted. -/
def bridgeB : Bridge := fun _ => Except.ok (mockPredict "x")

/-- Detector environment whose init bridge call rejects. -/
def envBridgeError : DetectorEnv :=
  { bridgeExists := true, bridgeInit := Except.error "Python failed: ModuleNotFoundError" }

/-- Image environment serving a decodable 50x50 jpeg for every path. -/
def smallImgEnv : ImgEnv :=
  { pathExistsF := fun _ => true
  , decodable := fun _ => true
  , decodeError := fun _ => ""
  , width := fun _ => 50
  , height := fun _ => 50
  , sizeBytes := fun _ => 4096
  , format := fun _ => "jpeg"
  , nowMs := 1755000000000 }

/-- Image environment for a genuine DICOM file: the sharp decoder cannot
decode its bytes. -/
def dicomEnvFail : ImgEnv :=
  { pathExistsF := fun _ => true
  , decodable := fun _ => false
  , decodeError := fun _ => "Input buffer contains unsupported image format"
  , width := fun _ => 0
  , height := fun _ => 0
  , sizeBytes := fun _ => 512000
  , format := fun _ => ""
  , nowMs := 1755000000000 }

/-- Image environment for a `.dcm` file whose bytes sharp happens to decode. -/
def dicomEnvOk : ImgEnv :=
  { pathExistsF := fun _ => true
  , decodable := fun _ => true
  , decodeError := fun _ => ""
  , width := fun _ => 1024
  , height := fun _ => 1024
  , sizeBytes := fun _ => 512000
  , format := fun _ => "jpeg"
  , nowMs := 1755000000000 }

/-- Constantly-true 503 pattern used by a witness. -/
def allTrue : Nat → Bool := fun _ => true

/-- Permanently failing outcome stream whose every failure is a 503. -/
def allFailTrue : Nat → AttemptOutcome := fun i => AttemptOutcome.failure (allTrue i)

/-- Predicate used by the bridge-failure claims: initialization fails in one
of the three source failure modes (missing script, rejected bridge call, or a
bridge answer with `success: false`). -/
def initFails (env : DetectorEnv) : Prop :=
  env.bridgeExists = false ∨ (∃ e, env.bridgeInit = Except.error e) ∨
    (∃ r, env.bridgeInit = Except.ok r ∧ r.success = false)

/-! ## Shared helper lemmas -/

/-- When every attempt fails, the retry loop throws its last error. -/
theorem retry_allFail_result (o : Nat → AttemptOutcome)
    (h : ∀ i, ∃ b, o i = AttemptOutcome.failure b) :
    ∃ b, (generateWithRetry o).result = Except.error b := by
  obtain ⟨b1, h1⟩ := h 1
  obtain ⟨b2, h2⟩ := h 2
  obtain ⟨b3, h3⟩ := h 3
  refine ⟨b3, ?_⟩
  have hrw : generateWithRetry o = runAttempts o [1, 2, 3] := rfl
  rw [hrw]
  simp [runAttempts, h1, h2, h3]

/-- The image pipeline never consults the decoded pixel dimensions. -/
theorem processImage_dims_irrel (env : ImgEnv) (w1 h1 w2 h2 : String → Nat) (p : String) :
    processImage { env with width := w1, height := h1 } p
      = processImage { env with width := w2, height := h2 } p := by
  simp [processImage, processDicomImage, processStandardImage, generateOutputPath]

/-! ## Claim theorems -/

/-- C1: the decision gate (the `puedeGenerarInforme` computation of
`/api/analyze`) is true iff the prediction's label equals the positive label
"Neumonía" and its confidence is at least the configured threshold; it is a
pure total Boolean function of those inputs, and the eligibility check of
`POST /api/generate-report` decides the same predicate. -/
theorem decisionGate_spec (label : String) (c t : ℚ) :
    (puedeGenerarInforme label c t = true ↔ (label = "Neumonía" ∧ t ≤ c)) ∧
    reportRequestAccepted label c t = puedeGenerarInforme label c t := by
  constructor
  · simp [puedeGenerarInforme]
  · have h1 : (decide (c < t)) = !(decide (t ≤ c)) := by
      by_cases h : t ≤ c
      · simp [h, not_lt.mpr h]
      · simp [h, not_le.mp h]
    by_cases hd : label = "Neumonía"
    · subst hd
      simp [puedeGenerarInforme, reportRequestAccepted, h1, Bool.not_not]
    · have hb : (label == "Neumonía") = false := by
        simp [hd]
      simp [puedeGenerarInforme, reportRequestAccepted, hb]

/-- C2: with the engine initialized in non-mock mode, `predict` resolves to
the hard-coded constant prediction (label "Neumonía", confidence 0.85, fixed
class probabilities) for every image path and every bridge: the Python
classifier bridge is never consulted and the result is independent of the
image supplied. -/
theorem predict_nonmock_constant (b b' : Bridge) (st : DetectorState) (p p' : String)
    (hInit : st.isInitialized = true) (hMock : st.useMockModel = false) :
    predict b st p = Except.ok hardcodedPrediction ∧
    predict b st p = predict b' st p' ∧
    hardcodedPrediction.label = "Neumonía" ∧
    hardcodedPrediction.confidence = 85/100 ∧
    hardcodedPrediction.classProbabilities = [("Neumonía", 85/100), ("Normal", 15/100)] ∧
    hardcodedPrediction.probNeumonia = 85/100 := by
  refine ⟨?_, ?_, rfl, rfl, rfl, rfl⟩ <;> simp [predict, hInit, hMock]

/-- Witness for C2 at two concrete bridges and image paths. -/
theorem predict_nonmock_constant_witness :
    predict bridgeA ⟨true, false⟩ "./uploads/a_processed_1.jpeg" = Except.ok hardcodedPrediction ∧
    predict bridgeA ⟨true, false⟩ "./uploads/a_processed_1.jpeg"
      = predict bridgeB ⟨true, false⟩ "./uploads/b_processed_2.jpeg" ∧
    hardcodedPrediction.label = "Neumonía" ∧
    hardcodedPrediction.confidence = 85/100 ∧
    hardcodedPrediction.classProbabilities = [("Neumonía", 85/100), ("Normal", 15/100)] ∧
    hardcodedPrediction.probNeumonia = 85/100 :=
  predict_nonmock_constant bridgeA bridgeB ⟨true, false⟩
    "./uploads/a_processed_1.jpeg" "./uploads/b_processed_2.jpeg" rfl rfl

/-- C6: whenever engine initialization fails (missing bridge script, rejected
bridge call, or an init answer reporting failure), `initialize` completes
without raising, records degraded mode (`useMockModel`), and every subsequent
`predict` call resolves immediately to the mock prediction, which carries the
degraded-mode marker. -/
theorem initDetector_degraded_mode (env : DetectorEnv) (h : initFails env) :
    (initDetector env).isInitialized = true ∧
    (initDetector env).useMockModel = true ∧
    (∀ b p, predict b (initDetector env) p = Except.ok (mockPredict p)) ∧
    (∀ p, (mockPredict p).modelInfo.status = "mock") := by
  have hmock : initDetector env = { isInitialized := true, useMockModel := true } := by
    rcases h with h | ⟨e, he⟩ | ⟨r, hr, hs⟩
    · simp [initDetector, tryInitDetector, h]
    · cases hbe : env.bridgeExists <;> simp [initDetector, tryInitDetector, hbe, he]
    · cases hbe : env.bridgeExists <;> simp [initDetector, tryInitDetector, hbe, hr, hs]
  refine ⟨by simp [hmock], by simp [hmock], ?_, fun p => rfl⟩
  intro b p
  simp [hmock, predict]

/-- Witness for C6 at a concrete environment whose bridge call rejects. -/
theorem initDetector_degraded_mode_witness :
    (initDetector envBridgeError).isInitialized = true ∧
    (initDetector envBridgeError).useMockModel = true ∧
    (∀ b p, predict b (initDetector envBridgeError) p = Except.ok (mockPredict p)) ∧
    (∀ p, (mockPredict p).modelInfo.status = "mock") :=
  initDetector_degraded_mode envBridgeError
    (Or.inr (Or.inl ⟨"Python failed: ModuleNotFoundError", rfl⟩))

/-- C3 counterexample: in the medgemma-4b-it configuration, when the
generation attempt fails (the subprocess that reaches the remote service
rejects), `generateReport` raises the error to its caller instead of
producing a fallback report — refuting "never raises" as universally
stated. -/
theorem generateReport_medgemma_error_propagates :
    generateReport cfg4b true failingGenEnv eligibleData
      = Except.error "Error Python: ConnectionError: no se pudo contactar con el servicio" := rfl

/-- C3 (amended): in every configuration other than medgemma-4b-it, for an
initialized generator, if every remote attempt fails — including the
unauthenticated case of a missing/placeholder token — `generateReport`
returns the deterministic fallback report, marked with demo provenance, and
never raises. -/
theorem generateReport_fallback_totality_rest (cfg : GenConfig) (env : GenEnv)
    (data : AnalysisData)
    (hm : (toLowerStr cfg.modelName == "google/medgemma-4b-it") = false)
    (hfail : ∀ i, ∃ b, env.outcomes i = AttemptOutcome.failure b) :
    generateReport cfg true env data
      = Except.ok (ReportResult.estructurado (generateFallbackReport data env.now)) ∧
    (generateFallbackReport data env.now).metadatos.modeloIA = "Sistema RADOX Demo" ∧
    (generateFallbackReport data env.now).metadatos.tipoInforme = some "Demostración" ∧
    (generateFallbackReport data env.now).disclaimer = disclaimerDemo := by
  refine ⟨?_, rfl, rfl, rfl⟩
  obtain ⟨b, hb⟩ := retry_allFail_result env.outcomes hfail
  cases htok : tokenMissing cfg.apiToken <;>
    simp [generateReport, hm, htok, hb]

/-- Witness for C3 (amended) at a concrete REST configuration and a
permanently failing remote service. -/
theorem generateReport_fallback_totality_rest_witness :
    generateReport cfgRest true failingGenEnv eligibleData
      = Except.ok (ReportResult.estructurado (generateFallbackReport eligibleData failingGenEnv.now)) ∧
    (generateFallbackReport eligibleData failingGenEnv.now).metadatos.modeloIA = "Sistema RADOX Demo" ∧
    (generateFallbackReport eligibleData failingGenEnv.now).metadatos.tipoInforme = some "Demostración" ∧
    (generateFallbackReport eligibleData failingGenEnv.now).disclaimer = disclaimerDemo :=
  generateReport_fallback_totality_rest cfgRest failingGenEnv eligibleData
    (by decide) (fun _ => ⟨false, rfl⟩)

/-- C5: the retry loop makes at most 3 attempts; on a permanently failing
service the delay inserted after a 503 failure at attempt i is the base delay
times i (including after the final attempt), the delay after any other
failure is the fixed base delay (none after the final attempt), the loop
throws the last error on exhaustion, and `generateReport` then falls through
to the deterministic fallback. -/
theorem generateWithRetry_policy :
    (∀ o, (generateWithRetry o).attemptsMade ≤ 3) ∧
    (∀ f : Nat → Bool,
      (generateWithRetry (fun i => AttemptOutcome.failure (f i))).result = Except.error (f 3) ∧
      (generateWithRetry (fun i => AttemptOutcome.failure (f i))).sleeps
        = [if f 1 then retryDelay * 1 else retryDelay,
           if f 2 then retryDelay * 2 else retryDelay]
          ++ (if f 3 then [retryDelay * 3] else [])) ∧
    (∀ cfg env data,
      (toLowerStr cfg.modelName == "google/medgemma-4b-it") = false →
      tokenMissing cfg.apiToken = false →
      (∀ i, ∃ b, env.outcomes i = AttemptOutcome.failure b) →
      generateReport cfg true env data
        = Except.ok (ReportResult.estructurado (generateFallbackReport data env.now))) := by
  refine ⟨?_, ?_, ?_⟩
  · intro o
    have hrw : generateWithRetry o = runAttempts o [1, 2, 3] := rfl
    rw [hrw]
    cases h1 : o 1 <;> cases h2 : o 2 <;> cases h3 : o 3 <;>
      simp [runAttempts, h1, h2, h3]
  · intro f
    have hrw : generateWithRetry (fun i => AttemptOutcome.failure (f i))
        = runAttempts (fun i => AttemptOutcome.failure (f i)) [1, 2, 3] := rfl
    rw [hrw]
    cases hf1 : f 1 <;> cases hf2 : f 2 <;> cases hf3 : f 3 <;>
      simp [runAttempts, hf1, hf2, hf3]
  · intro cfg env data hm htok hfail
    obtain ⟨b, hb⟩ := retry_allFail_result env.outcomes hfail
    simp [generateReport, hm, htok, hb]

/-- Witness for C5 at concrete outcome streams and a concrete REST
configuration. -/
theorem generateWithRetry_policy_witness :
    (generateWithRetry allFailTrue).attemptsMade ≤ 3 ∧
    ((generateWithRetry (fun i => AttemptOutcome.failure (allTrue i))).result
        = Except.error (allTrue 3) ∧
      (generateWithRetry (fun i => AttemptOutcome.failure (allTrue i))).sleeps
        = [if allTrue 1 then retryDelay * 1 else retryDelay,
           if allTrue 2 then retryDelay * 2 else retryDelay]
          ++ (if allTrue 3 then [retryDelay * 3] else [])) ∧
    generateReport cfgRest true failingGenEnv eligibleData
      = Except.ok (ReportResult.estructurado (generateFallbackReport eligibleData failingGenEnv.now)) :=
  ⟨generateWithRetry_policy.1 allFailTrue,
   generateWithRetry_policy.2.1 allTrue,
   generateWithRetry_policy.2.2 cfgRest failingGenEnv eligibleData
     (by decide) (by decide) (fun _ => ⟨false, rfl⟩)⟩

/-- C4 counterexample: the remote-processed path and the fallback path attach
different disclaimer strings, so no one fixed disclaimer string is contained
verbatim in every generated report. -/
theorem disclaimers_differ :
    (processReport cfgRest "Informe de prueba" eligibleData date1).disclaimer
      ≠ (generateFallbackReport eligibleData date1).disclaimer := by
  decide

/-- C4 (amended): each structured-report path attaches its own fixed
disclaimer verbatim — the remote-processed path always `disclaimerIA`, the
fallback path always `disclaimerDemo` — while the medgemma-4b-it branch
resolves to the bare generated text carrying no disclaimer field at all. -/
theorem disclaimer_fixed_per_path :
    (∀ cfg raw data now, (processReport cfg raw data now).disclaimer = disclaimerIA) ∧
    (∀ data now, (generateFallbackReport data now).disclaimer = disclaimerDemo) ∧
    (∀ cfg env data p s,
      (toLowerStr cfg.modelName == "google/medgemma-4b-it") = true →
      data.imagePath = some p →
      env.medgemma (buildMedicalPrompt cfg data.diagnostico data.confianza env.now) p
        = Except.ok s →
      generateReport cfg true env data = Except.ok (ReportResult.texto s.trim)) := by
  refine ⟨fun _ _ _ _ => rfl, fun _ _ => rfl, ?_⟩
  intro cfg env data p s hm hp hs
  simp [generateReport, hm, hp, hs]

/-- Witness for C4 (amended) at concrete reports and a concrete successful
medgemma-4b-it run. -/
theorem disclaimer_fixed_per_path_witness :
    (processReport cfgRest "Informe de prueba" eligibleData date1).disclaimer = disclaimerIA ∧
    (generateFallbackReport eligibleData date1).disclaimer = disclaimerDemo ∧
    generateReport cfg4b true okGenEnv eligibleData
      = Except.ok (ReportResult.texto ("Informe generado por MedGemma" : String).trim) :=
  ⟨disclaimer_fixed_per_path.1 cfgRest "Informe de prueba" eligibleData date1,
   disclaimer_fixed_per_path.2.1 eligibleData date1,
   disclaimer_fixed_per_path.2.2 cfg4b okGenEnv eligibleData
     "./uploads/radiografia-1_processed_1755000000000.jpeg"
     "Informe generado por MedGemma" (by decide) rfl rfl⟩

/-- C7 counterexample: two invocations of `generateFallbackReport` on the
same diagnosis and confidence but at different wall-clock instants produce
different reports (the generation timestamp and the embedded date/time
differ), refuting determinism as a function of the input alone. -/
theorem fallback_clock_dependent :
    generateFallbackReport eligibleData date1 ≠ generateFallbackReport eligibleData date2 := by
  intro h
  have h2 := congrArg (fun r => r.metadatos.fechaGeneracion) h
  exact absurd h2 (by decide)

/-- C7 (amended): the fallback path is deterministic given the same diagnosis,
confidence and clock reading; runs at different clock readings agree on every
field that does not embed the clock (summary, findings, recommendations,
disclaimer), while `metadatos.fechaGeneracion` is exactly the clock's ISO
string. -/
theorem fallback_deterministic_given_clock (data : AnalysisData) (t t' : JsDate) :
    (t = t' → generateFallbackReport data t = generateFallbackReport data t') ∧
    (generateFallbackReport data t).resumenEjecutivo
      = (generateFallbackReport data t').resumenEjecutivo ∧
    (generateFallbackReport data t).hallazgos = (generateFallbackReport data t').hallazgos ∧
    (generateFallbackReport data t).recomendaciones
      = (generateFallbackReport data t').recomendaciones ∧
    (generateFallbackReport data t).disclaimer = (generateFallbackReport data t').disclaimer ∧
    (generateFallbackReport data t).metadatos.fechaGeneracion = t.iso :=
  ⟨fun h => by rw [h], rfl, rfl, rfl, rfl, rfl⟩

/-- Witness for C7 (amended) at a concrete input and clock reading. -/
theorem fallback_deterministic_given_clock_witness :
    generateFallbackReport eligibleData date1 = generateFallbackReport eligibleData date1 ∧
    (generateFallbackReport eligibleData date1).metadatos.fechaGeneracion = date1.iso :=
  ⟨(fallback_deterministic_given_clock eligibleData date1 date1).1 rfl,
   (fallback_deterministic_given_clock eligibleData date1 date1).2.2.2.2.2⟩

/-- C8 counterexample: a `.dcm` input whose bytes the standard decoder cannot
decode (the case for genuine DICOM pixel data) makes `processImage` fail
outright instead of producing a best-effort single-channel image. -/
theorem dicom_undecodable_fails :
    processImage dicomEnvFail "./uploads/estudio.dcm"
      = Except.error "Error al procesar imagen DICOM: Error al procesar imagen estándar: Input buffer contains unsupported image format" := rfl

/-- C8 (amended): medical-format (`.dcm`/`.dicom`) inputs are routed through
the standard image path with no dedicated DICOM decoding: when the standard
decoder can decode the file the result is the single-channel (grayscale)
resized normalized image, and when it cannot, processing fails with a
DICOM-wrapped error rather than producing a best-effort image. -/
theorem dicom_routed_standard (env : ImgEnv) (p : String)
    (hex : env.pathExistsF p = true)
    (hdcm : toLowerStr (extname p) = ".dcm" ∨ toLowerStr (extname p) = ".dicom") :
    (env.decodable p = true →
      processImage env p = Except.ok
        { path := generateOutputPath p env.nowMs
        , width := targetSize
        , height := targetSize
        , grayscale := true
        , normalized := true
        , format := "jpeg"
        , quality := 90 }) ∧
    (env.decodable p = false →
      processImage env p = Except.error
        ("Error al procesar imagen DICOM: "
          ++ ("Error al procesar imagen estándar: " ++ env.decodeError p))) := by
  have hmem : toLowerStr (extname p) ∈ supportedFormats := by
    rcases hdcm with h | h <;> simp [supportedFormats, h]
  have hdisp : (toLowerStr (extname p) == ".dcm" || toLowerStr (extname p) == ".dicom") = true := by
    rcases hdcm with h | h <;> simp [h]
  constructor
  · intro hdec
    simp [processImage, hex, hmem, hdisp, processDicomImage, processStandardImage, hdec]
  · intro hdec
    simp [processImage, hex, hmem, hdisp, processDicomImage, processStandardImage, hdec]

/-- Witness for C8 (amended) at a concrete decodable `.dcm` input. -/
theorem dicom_routed_standard_witness :
    processImage dicomEnvOk "./uploads/estudio.dcm"
      = Except.ok
        { path := generateOutputPath "./uploads/estudio.dcm" 1755000000000
        , width := targetSize
        , height := targetSize
        , grayscale := true
        , normalized := true
        , format := "jpeg"
        , quality := 90 } :=
  (dicom_routed_standard dicomEnvOk "./uploads/estudio.dcm" rfl (Or.inl (by decide))).1 rfl

/-- C9 counterexample: a 50x50 image sails through the `/api/analyze`
pipeline — processing succeeds and inference produces a diagnosis — with no
`ImageTooSmall` failure, even though `validateImage` would have flagged it;
the request does not terminate before inference. -/
theorem small_image_reaches_inference :
    analyzeRequest smallImgEnv bridgeA ⟨true, false⟩ (7/10) "./uploads/radiografia-1.jpg"
      = Except.ok
        { diagnostico := "Neumonía"
        , confianza := 85/100
        , porcentaje := 85
        , tieneNeumonia := true
        , puedeGenerarInforme := true
        , imagePath := "./uploads/radiografia-1_processed_1755000000000.jpeg" } ∧
    (validateImage smallImgEnv "./uploads/radiografia-1.jpg").isValid = false ∧
    (validateImage smallImgEnv "./uploads/radiografia-1.jpg").errors
      = ["Imagen demasiado pequeña (mínimo 100x100)"] := by
  refine ⟨?_, rfl, rfl⟩
  have hbase : analyzeRequest smallImgEnv bridgeA ⟨true, false⟩ (7/10) "./uploads/radiografia-1.jpg"
      = Except.ok
        { diagnostico := "Neumonía"
        , confianza := 85/100
        , porcentaje := pct (85/100)
        , tieneNeumonia := true
        , puedeGenerarInforme := puedeGenerarInforme "Neumonía" (85/100) (7/10)
        , imagePath := "./uploads/radiografia-1_processed_1755000000000.jpeg" } := rfl
  have h1 : pct (85/100 : ℚ) = 85 := by
    norm_num [pct, jsRound]
  have h2 : puedeGenerarInforme "Neumonía" (85/100 : ℚ) (7/10) = true := by
    simp only [puedeGenerarInforme]
    norm_num
  rw [hbase, h1, h2]

/-- C9 (amended): `validateImage` does flag images below the 100x100 floor as
invalid with the too-small error, but no request path invokes it: the
`/api/analyze` pipeline is independent of the image's pixel dimensions, so
undersized images are processed and inference proceeds. -/
theorem imageFloor_unenforced (env : ImgEnv) (w1 h1 w2 h2 : String → Nat)
    (b : Bridge) (st : DetectorState) (thr : ℚ) (p : String)
    (hdec : env.decodable p = true)
    (hsmall : env.width p < 100 ∨ env.height p < 100) :
    (validateImage env p).isValid = false ∧
    (validateImage env p).errors.contains "Imagen demasiado pequeña (mínimo 100x100)" = true ∧
    analyzeRequest { env with width := w1, height := h1 } b st thr p
      = analyzeRequest { env with width := w2, height := h2 } b st thr p := by
  have hw : (decide (env.width p < 100) || decide (env.height p < 100)) = true := by
    rcases hsmall with h | h <;> simp [h]
  refine ⟨?_, ?_, ?_⟩
  · simp [validateImage, hdec, hw]
  · simp [validateImage, hdec, hw]
  · simp only [analyzeRequest]
    rw [processImage_dims_irrel env w1 h1 w2 h2 p]

/-- Witness for C9 (amended) at the concrete 50x50 environment. -/
theorem imageFloor_unenforced_witness :
    (validateImage smallImgEnv "./uploads/radiografia-1.jpg").isValid = false ∧
    (validateImage smallImgEnv "./uploads/radiografia-1.jpg").errors.contains
      "Imagen demasiado pequeña (mínimo 100x100)" = true ∧
    analyzeRequest { smallImgEnv with width := fun _ => 50, height := fun _ => 50 }
        bridgeA ⟨true, false⟩ (7/10) "./uploads/radiografia-1.jpg"
      = analyzeRequest { smallImgEnv with width := fun _ => 500, height := fun _ => 500 }
        bridgeA ⟨true, false⟩ (7/10) "./uploads/radiografia-1.jpg" :=
  imageFloor_unenforced smallImgEnv (fun _ => 50) (fun _ => 50) (fun _ => 500) (fun _ => 500)
    bridgeA ⟨true, false⟩ (7/10) "./uploads/radiografia-1.jpg" rfl (Or.inl (by decide))

/-- C10: report assembly extracts the findings and recommendations sections
by anchor-phrase search; whenever an anchor phrase is absent from the raw
text the corresponding field is the fixed default placeholder, and the full
raw text is always carried through unmodified in `informeCompleto`. -/
theorem processReport_extraction (cfg : GenConfig) (raw : String) (data : AnalysisData)
    (now : JsDate) :
    (findSub ("hallazgos".data) ((toLowerStr raw).data) = none →
      (processReport cfg raw data now).hallazgos = "Ver informe completo") ∧
    (findSub ("recomendaciones".data) ((toLowerStr raw).data) = none →
      (processReport cfg raw data now).recomendaciones
        = "Consultar con especialista en neumología") ∧
    (processReport cfg raw data now).informeCompleto = raw := by
  refine ⟨?_, ?_, rfl⟩
  · intro h
    simp [processReport, extractFindings, h]
  · intro h
    simp [processReport, extractRecommendations, h]

/-- Witness for C10 at a concrete raw text containing neither anchor. -/
theorem processReport_extraction_witness :
    (processReport cfgRest "Texto sin secciones." eligibleData date1).hallazgos
      = "Ver informe completo" ∧
    (processReport cfgRest "Texto sin secciones." eligibleData date1).recomendaciones
      = "Consultar con especialista en neumología" ∧
    (processReport cfgRest "Texto sin secciones." eligibleData date1).informeCompleto
      = "Texto sin secciones." :=
  ⟨(processReport_extraction cfgRest "Texto sin secciones." eligibleData date1).1 (by decide),
   (processReport_extraction cfgRest "Texto sin secciones." eligibleData date1).2.1 (by decide),
   (processReport_extraction cfgRest "Texto sin secciones." eligibleData date1).2.2⟩

end Radox
